import Mathlib

/-!
Shallow embedding of `custom_components/tpms_ble/tpms_parser/parser.py`:
the TPMS BLE frame decoder (`_handle_16_byte_data`, its inner `byte2flag`,
and the notification entry point `_on_data_received`) and the session
orchestration state touched by `_start_update`.

Python strings are modelled as `List Char` (one entry per code point, so
`len` is `List.length` and `s[i]` is `List.get?`), byte buffers as
`List ℕ` of byte values, raised-and-caught exceptions as `none`.
-/

set_option autoImplicit false

namespace TPMS

/-- A successfully decoded frame: the dictionary built at the end of
`_handle_16_byte_data` (keys `pressure`, `temperature`, `battery`,
`sensor_no`).  `pressure` is rational because the code adds the float `0.5`
to an integer; the other fields stay integral. -/
structure TPMSReading where
  pressure : ℚ
  temperature : ℤ
  battery : ℕ
  sensor_no : ℤ
deriving DecidableEq

/-- ASCII whitespace skipped by Python `int(str, 16)` around the number:
space (32), tab (9), newline (10), vertical tab (11), form feed (12),
carriage return (13).  (CPython also maps non-ASCII Unicode whitespace to a
space first; this model covers the ASCII repertoire, which is all the
claims and counterexamples use.) -/
def isPySpace (c : Char) : Bool :=
  c.toNat == 32 || c.toNat == 9 || c.toNat == 10 || c.toNat == 11 ||
    c.toNat == 12 || c.toNat == 13

/-- ASCII hexadecimal digit accepted by Python `int(str, 16)`:
`0`-`9` (48-57), `a`-`f` (97-102), `A`-`F` (65-70).  (CPython also accepts
non-ASCII Unicode decimal digits, outside this ASCII-scope model.) -/
def isPyHexDigit (c : Char) : Bool :=
  (48 ≤ c.toNat && c.toNat ≤ 57) || (97 ≤ c.toNat && c.toNat ≤ 102) ||
    (65 ≤ c.toNat && c.toNat ≤ 70)

/-- Numeric value of an ASCII hex digit. -/
def hexVal (c : Char) : ℕ :=
  if c.toNat ≤ 57 then c.toNat - 48
  else if 97 ≤ c.toNat then c.toNat - 87
  else c.toNat - 55

/-- The leading- and trailing-whitespace stripping Python `int(str, 16)`
performs before parsing the number. -/
def stripPySpaces (cs : List Char) : List Char :=
  ((cs.dropWhile isPySpace).reverse.dropWhile isPySpace).reverse

/-- Digits after the first one, for Python `int(str, 16)`: a single
underscore is allowed between two digits (`"1_2"`), but not leading,
trailing or doubled.  `acc` is the value accumulated so far; one digit has
already been consumed. -/
def pyHexGo (acc : ℕ) : List Char → Option ℕ
  | [] => some acc
  | c :: rest =>
    if c = '_' then
      match rest with
      | [] => none
      | c2 :: rest2 =>
        if isPyHexDigit c2 then pyHexGo (acc * 16 + hexVal c2) rest2 else none
    else if isPyHexDigit c then pyHexGo (acc * 16 + hexVal c) rest else none

/-- The digit sequence of Python `int(str, 16)`.  `afterMark` is true when a
`0x`/`0X` radix mark was just consumed, in which case one underscore may
also precede the first digit (`"0x_12"` parses, `"_12"` does not). -/
def pyHexDigits (afterMark : Bool) (cs : List Char) : Option ℕ :=
  match cs with
  | [] => none
  | c :: rest =>
    if afterMark = true ∧ c = '_' then
      match rest with
      | [] => none
      | c2 :: rest2 =>
        if isPyHexDigit c2 then pyHexGo (hexVal c2) rest2 else none
    else if isPyHexDigit c then pyHexGo (hexVal c) rest else none

/-- Unsigned body of Python `int(str, 16)`: an optional `0x`/`0X` radix mark
followed by the digits. -/
def pyIntBody (cs : List Char) : Option ℕ :=
  match cs with
  | c0 :: c1 :: rest =>
    if c0 = '0' ∧ (c1 = 'x' ∨ c1 = 'X') then pyHexDigits true rest
    else pyHexDigits false (c0 :: c1 :: rest)
  | _ => pyHexDigits false cs

/-- Python `int(str, 16)` on a character list, `none` where the call raises
`ValueError`: optional surrounding whitespace, an optional sign, an optional
`0x`/`0X` mark, then at least one hex digit with single interior
underscores. -/
def pyIntHex (cs : List Char) : Option ℤ :=
  match stripPySpaces cs with
  | [] => none
  | c :: rest =>
    if c = '+' then (pyIntBody rest).map (fun n => (n : ℤ))
    else if c = '-' then (pyIntBody rest).map (fun n => -(n : ℤ))
    else (pyIntBody (c :: rest)).map (fun n => (n : ℤ))

/-- Value held by `val` after running the loop body `val = byte0 % 2;
byte0 = byte0 // 2` a total of `n + 1` times starting from `b`.  Python `%`
and `//` on ints are floor modulus and floor division, `Int.fmod` and
`Int.fdiv`. -/
def byte2flagLoopVal (b : ℤ) : ℕ → ℤ
  | 0 => Int.fmod b 2
  | n + 1 => byte2flagLoopVal (Int.fdiv b 2) n

/-- The inner helper `byte2flag(byte1, byte0, bit)` of
`_handle_16_byte_data`: recombines `byte0 = byte1 * 16 + byte0`, runs the
division loop `bit + 1` times, and reports whether the final remainder is
`1`. -/
def byte2flag (byte1 byte0 : ℤ) (bit : ℕ) : Bool :=
  byte2flagLoopVal (byte1 * 16 + byte0) bit == 1

/-- `data.startswith("$A0")`. -/
def startsWithA0 (data : List Char) : Bool :=
  data.take 3 == ['$', 'A', '0']

/-- `data.endswith("#")`. -/
def endsWithHash (data : List Char) : Bool :=
  data.getLast? == some '#'

/-- `_handle_16_byte_data` from `parser.py`.  Inside the `try` block a
possible `IndexError` (single-character indexing past the end) or
`ValueError` (hex parse failure) is caught by the `except` clause and comes
back as `none`; the slices `data[9:11]` and `data[11:13]` are
`(data.drop i).take 2` and never raise. -/
def handle16ByteData (data : List Char) : Option TPMSReading :=
  if !startsWithA0 data || !endsWithHash data then none
  else
    match data.get? 6 with
    | none => none
    | some c6 =>
      match pyIntHex [c6] with
      | none => none
      | some v6 =>
        match data.get? 7 with
        | none => none
        | some c7 =>
          match pyIntHex [c7] with
          | none => none
          | some flag_hi =>
            match data.get? 8 with
            | none => none
            | some c8 =>
              match pyIntHex [c8] with
              | none => none
              | some flag_lo =>
                let sensor_no := v6 + 1
                let battery_low := byte2flag flag_hi flag_lo 1
                let rx_data_fresh := byte2flag flag_hi flag_lo 7
                let half_point := byte2flag flag_hi flag_lo 0
                if !rx_data_fresh then none
                else
                  match data.get? 11 with
                  | none => none
                  | some c11 =>
                    match pyIntHex ((data.drop 9).take 2 ++ [c11]) with
                    | none => none
                    | some praw =>
                      match pyIntHex ((data.drop 11).take 2) with
                      | none => none
                      | some traw =>
                        some { pressure := (praw : ℚ) + (if half_point then (1 : ℚ) / 2 else 0)
                               temperature := traw - 40
                               battery := if battery_low then 20 else 100
                               sensor_no := sensor_no }

/-- Strict UTF-8 decoding, as Python `bytes.decode("utf-8")`: rejects bare
continuation bytes, overlong encodings (`C0`/`C1` leads, `E0 80-9F`,
`F0 80-8F`), surrogates (`ED A0-BF`) and code points above `U+10FFFF`
(leads `F5`-`FF`, `F4 90-BF`). -/
def utf8Decode : List ℕ → Option (List Char)
  | [] => some []
  | b :: rest =>
    if b < 0x80 then
      (utf8Decode rest).map (fun cs => Char.ofNat b :: cs)
    else if b < 0xC2 then none
    else if b < 0xE0 then
      match rest with
      | [] => none
      | b1 :: rest1 =>
        if 0x80 ≤ b1 && b1 < 0xC0 then
          (utf8Decode rest1).map
            (fun cs => Char.ofNat ((b - 0xC0) * 0x40 + (b1 - 0x80)) :: cs)
        else none
    else if b < 0xF0 then
      match rest with
      | b1 :: b2 :: rest2 =>
        if (0x80 ≤ b1 && b1 < 0xC0) && (0x80 ≤ b2 && b2 < 0xC0) &&
            !(b == 0xE0 && b1 < 0xA0) && !(b == 0xED && 0xA0 ≤ b1) then
          (utf8Decode rest2).map
            (fun cs =>
              Char.ofNat ((b - 0xE0) * 0x1000 + (b1 - 0x80) * 0x40 + (b2 - 0x80)) :: cs)
        else none
      | _ => none
    else if b < 0xF5 then
      match rest with
      | b1 :: b2 :: b3 :: rest3 =>
        if (0x80 ≤ b1 && b1 < 0xC0) && (0x80 ≤ b2 && b2 < 0xC0) &&
            (0x80 ≤ b3 && b3 < 0xC0) &&
            !(b == 0xF0 && b1 < 0x90) && !(b == 0xF4 && 0x90 ≤ b1) then
          (utf8Decode rest3).map
            (fun cs =>
              Char.ofNat ((b - 0xF0) * 0x40000 + (b1 - 0x80) * 0x1000 +
                (b2 - 0x80) * 0x40 + (b3 - 0x80)) :: cs)
        else none
      | _ => none
    else none

/-- `_on_data_received` from `parser.py`: a UTF-8 decode failure is caught
(warning logged, no reading); only texts of length exactly 16 reach
`_handle_16_byte_data`; the result is the parsed reading handed to
`_update_sensors`, or `none` when nothing is published. -/
def onDataReceived (bs : List ℕ) : Option TPMSReading :=
  match utf8Decode bs with
  | none => none
  | some s => if s.length = 16 then handle16ByteData s else none

/-- One advertised characteristic from a `BluetoothServiceInfo`
(`uuid` plus an abstract reference). -/
structure Characteristic where
  uuid : String
  handle : ℕ
deriving DecidableEq

/-- The advertisement fields `_start_update` reads. -/
structure ServiceInfo where
  name : String
  service_uuids : List String
  characteristics : List Characteristic
deriving DecidableEq

def TARGET_NAMES : List String := ["TYREDOG", "JDY-08", "Realtek", "RB8762"]

def SERVICE_UUID : String := "6E400001-B5A3-F393-E0A9-E50E24DCCA9E"

def WRITE_CHARACTERISTIC_UUID : String := "6E400002-B5A3-F393-E0A9-E50E24DCCA9E"

def NOTIFY_CHARACTERISTIC_UUID : String := "6E400003-B5A3-F393-E0A9-E50E24DCCA9E"

/-- Session state of `TPMSBluetoothDeviceData`: the two stored
characteristic references (`None` in `__init__`) plus a count of how many
times the handshake coroutine `_enable_notifications_and_send_command`
(sleep, `start_notify`, `write_value`, sleep) has been entered — the
await sequence is modelled as one counted atomic event.  Published device
metadata is out of scope. -/
structure SessionState where
  notify_char : Option ℕ
  write_char : Option ℕ
  handshakes : ℕ
deriving DecidableEq

def initState : SessionState :=
  { notify_char := none, write_char := none, handshakes := 0 }

/-- The characteristic-scanning `for` loop of `_start_update`. -/
def scanChars (st : SessionState) (chars : List Characteristic) : SessionState :=
  chars.foldl
    (fun s ch =>
      if ch.uuid = NOTIFY_CHARACTERISTIC_UUID then { s with notify_char := some ch.handle }
      else if ch.uuid = WRITE_CHARACTERISTIC_UUID then { s with write_char := some ch.handle }
      else s)
    st

/-- `_start_update` from `parser.py` on one advertisement: the two early
returns (name allow-list, target service UUID), the characteristic scan,
and — whenever both stored characteristics are set (Python truthiness of
the two objects) — another run of the handshake coroutine. -/
def startUpdate (st : SessionState) (info : ServiceInfo) : SessionState :=
  if info.name ∉ TARGET_NAMES then st
  else if SERVICE_UUID ∉ info.service_uuids then st
  else if (scanChars st info.characteristics).notify_char.isSome ∧
      (scanChars st info.characteristics).write_char.isSome then
    { scanChars st info.characteristics with
        handshakes := (scanChars st info.characteristics).handshakes + 1 }
  else scanChars st info.characteristics

/-- A session processing a sequence of incoming advertisements, one
`_start_update` call per advertisement. -/
def processAll (st : SessionState) (ads : List ServiceInfo) : SessionState :=
  ads.foldl startUpdate st

end TPMS

namespace TPMS

/-! ### Arithmetic facts about hex characters and `pyIntHex` -/

theorem hexVal_lt_16 {c : Char} (h : isPyHexDigit c = true) : hexVal c < 16 := by
  simp [isPyHexDigit] at h
  simp only [hexVal]
  split
  · omega
  · split <;> omega

theorem ne_of_toNat_ne {c d : Char} (h : c.toNat ≠ d.toNat) : c ≠ d :=
  fun he => h (congrArg Char.toNat he)

theorem hex_toNat_bounds {c : Char} (h : isPyHexDigit c = true) :
    ((48 ≤ c.toNat ∧ c.toNat ≤ 57) ∨ (97 ≤ c.toNat ∧ c.toNat ≤ 102)) ∨
      (65 ≤ c.toNat ∧ c.toNat ≤ 70) := by
  simpa [isPyHexDigit] using h

theorem hex_not_space {c : Char} (h : isPyHexDigit c = true) : isPySpace c = false := by
  have := hex_toNat_bounds h
  simp [isPySpace]
  omega

theorem hex_ne_plus {c : Char} (h : isPyHexDigit c = true) : c ≠ '+' := by
  have := hex_toNat_bounds h
  exact ne_of_toNat_ne (by simp; omega)

theorem hex_ne_minus {c : Char} (h : isPyHexDigit c = true) : c ≠ '-' := by
  have := hex_toNat_bounds h
  exact ne_of_toNat_ne (by simp; omega)

theorem hex_ne_underscore {c : Char} (h : isPyHexDigit c = true) : c ≠ '_' := by
  have := hex_toNat_bounds h
  exact ne_of_toNat_ne (by simp; omega)

theorem hex_ne_x {c : Char} (h : isPyHexDigit c = true) : c ≠ 'x' := by
  have := hex_toNat_bounds h
  exact ne_of_toNat_ne (by simp; omega)

theorem hex_ne_X {c : Char} (h : isPyHexDigit c = true) : c ≠ 'X' := by
  have := hex_toNat_bounds h
  exact ne_of_toNat_ne (by simp; omega)

theorem pyIntHex_hexDigit {c : Char} (h : isPyHexDigit c = true) :
    pyIntHex [c] = some ((hexVal c : ℕ) : ℤ) := by
  simp [pyIntHex, stripPySpaces, List.dropWhile, hex_not_space h, hex_ne_plus h,
    hex_ne_minus h, pyIntBody, pyHexDigits, h, pyHexGo]

theorem pyIntHex_single_none {c : Char} (h : isPyHexDigit c = false) :
    pyIntHex [c] = none := by
  by_cases hs : isPySpace c
  · simp [pyIntHex, stripPySpaces, List.dropWhile, hs]
  · by_cases hp : c = '+'
    · subst hp
      simp [pyIntHex, stripPySpaces, List.dropWhile, hs, pyIntBody, pyHexDigits]
    · by_cases hm : c = '-'
      · subst hm
        simp [pyIntHex, stripPySpaces, List.dropWhile, hs, pyIntBody, pyHexDigits]
      · simp [pyIntHex, stripPySpaces, List.dropWhile, hs, hp, hm,
          pyIntBody, pyHexDigits, h]

theorem pyIntHex_single_inv {c : Char} {v : ℤ} (h : pyIntHex [c] = some v) :
    isPyHexDigit c = true ∧ v = (hexVal c : ℕ) := by
  by_cases hd : isPyHexDigit c
  · rw [pyIntHex_hexDigit hd] at h
    exact ⟨hd, (Option.some_inj.mp h).symm⟩
  · rw [pyIntHex_single_none (Bool.not_eq_true _ ▸ hd)] at h
    exact absurd h (by simp)

theorem pyIntHex_twoHex {a b : Char} (ha : isPyHexDigit a = true)
    (hb : isPyHexDigit b = true) :
    pyIntHex [a, b] = some ((hexVal a * 16 + hexVal b : ℕ) : ℤ) := by
  simp [pyIntHex, stripPySpaces, List.dropWhile, hex_not_space ha, hex_not_space hb,
    hex_ne_plus ha, hex_ne_minus ha, pyIntBody, hex_ne_x hb, hex_ne_X hb,
    pyHexDigits, ha, pyHexGo, hex_ne_underscore hb, hb]

theorem pyIntHex_threeHex {a b c : Char} (ha : isPyHexDigit a = true)
    (hb : isPyHexDigit b = true) (hc : isPyHexDigit c = true) :
    pyIntHex [a, b, c] = some (((hexVal a * 16 + hexVal b) * 16 + hexVal c : ℕ) : ℤ) := by
  simp [pyIntHex, stripPySpaces, List.dropWhile, hex_not_space ha, hex_not_space hb,
    hex_not_space hc, hex_ne_plus ha, hex_ne_minus ha, pyIntBody, hex_ne_x hb, hex_ne_X hb,
    pyHexDigits, ha, pyHexGo, hex_ne_underscore hb, hb, hex_ne_underscore hc, hc]

/-! ### The division loop of `byte2flag` computes `Nat.testBit` -/

theorem int_fdiv_natCast (a b : ℕ) : Int.fdiv (a : ℤ) (b : ℤ) = ((a / b : ℕ) : ℤ) := by
  rw [Int.fdiv_eq_ediv] <;> simp

theorem int_fmod_natCast (a b : ℕ) : Int.fmod (a : ℤ) (b : ℤ) = ((a % b : ℕ) : ℤ) := by
  rw [Int.fmod_eq_emod] <;> simp [Int.ofNat_emod]

theorem byte2flagLoopVal_natCast (k : ℕ) :
    ∀ n : ℕ, byte2flagLoopVal (n : ℤ) k = ((n / 2 ^ k % 2 : ℕ) : ℤ) := by
  induction k with
  | zero =>
    intro n
    show Int.fmod (n : ℤ) ((2 : ℕ) : ℤ) = _
    rw [int_fmod_natCast]
    norm_num
  | succ k ih =>
    intro n
    show byte2flagLoopVal (Int.fdiv (n : ℤ) ((2 : ℕ) : ℤ)) k = _
    rw [int_fdiv_natCast, ih (n / 2), Nat.div_div_eq_div_mul, ← pow_succ']

theorem byte2flag_natCast (hi lo : ℕ) (bit : ℕ) :
    byte2flag (hi : ℤ) (lo : ℤ) bit = Nat.testBit (hi * 16 + lo) bit := by
  unfold byte2flag
  have hc : ((hi : ℤ) * 16 + (lo : ℤ)) = ((hi * 16 + lo : ℕ) : ℤ) := by push_cast; ring
  rw [hc, byte2flagLoopVal_natCast, Nat.testBit_to_div_mod]
  rcases Nat.mod_two_eq_zero_or_one ((hi * 16 + lo) / 2 ^ bit) with h | h <;> simp [h]

/-! ### Evaluation of `_handle_16_byte_data` on a well-formed frame -/

theorem handle16_eval (c3 c4 c5 c6 c7 c8 c9 c10 c11 c12 c13 c14 : Char)
    (h6 : isPyHexDigit c6 = true) (h7 : isPyHexDigit c7 = true)
    (h8 : isPyHexDigit c8 = true) (h9 : isPyHexDigit c9 = true)
    (h10 : isPyHexDigit c10 = true) (h11 : isPyHexDigit c11 = true)
    (h12 : isPyHexDigit c12 = true) :
    handle16ByteData
        ['$', 'A', '0', c3, c4, c5, c6, c7, c8, c9, c10, c11, c12, c13, c14, '#'] =
      if Nat.testBit (hexVal c7 * 16 + hexVal c8) 7 then
        some { pressure :=
                 ((hexVal c9 * 256 + hexVal c10 * 16 + hexVal c11 : ℕ) : ℚ) +
                   (if Nat.testBit (hexVal c7 * 16 + hexVal c8) 0 then (1 : ℚ) / 2 else 0)
               temperature := ((hexVal c11 * 16 + hexVal c12 : ℕ) : ℤ) - 40
               battery := if Nat.testBit (hexVal c7 * 16 + hexVal c8) 1 then 20 else 100
               sensor_no := ((hexVal c6 : ℕ) : ℤ) + 1 }
      else none := by
  have hstart :
      startsWithA0 ['$', 'A', '0', c3, c4, c5, c6, c7, c8, c9, c10, c11, c12, c13, c14, '#'] =
        true := rfl
  have hend :
      endsWithHash ['$', 'A', '0', c3, c4, c5, c6, c7, c8, c9, c10, c11, c12, c13, c14, '#'] =
        true := rfl
  simp only [handle16ByteData, hstart, hend, Bool.not_true, Bool.or_self, Bool.false_eq_true,
    if_false, List.get?, List.drop, List.take, List.cons_append, List.nil_append,
    pyIntHex_hexDigit h6, pyIntHex_hexDigit h7, pyIntHex_hexDigit h8,
    pyIntHex_threeHex h9 h10 h11, pyIntHex_twoHex h11 h12,
    byte2flag_natCast]
  rcases hb7 : Nat.testBit (hexVal c7 * 16 + hexVal c8) 7 with _ | _ <;>
    simp only [hb7, Bool.not_false, Bool.not_true, if_true, if_false] <;>
    try rfl
  have h256 : (hexVal c9 * 16 + hexVal c10) * 16 + hexVal c11 =
      hexVal c9 * 256 + hexVal c10 * 16 + hexVal c11 := by ring
  simp [h256]

end TPMS

namespace TPMS

/-- Claim C1: a 16-character frame starting with `$A0`, ending with `#`,
with hex digits at positions 6-12 and bit 7 of the flags byte set, decodes
to exactly: sensor index = hex digit 6 plus 1, pressure = the three hex
digits at 9,10,11 plus 0.5 iff bit 0 of the flags byte is set, temperature
= the two hex digits at 11,12 minus 40, battery = 20 if bit 1 of the flags
byte is set else 100. -/
theorem claim_C1_decode_success (c3 c4 c5 c6 c7 c8 c9 c10 c11 c12 c13 c14 : Char)
    (h6 : isPyHexDigit c6 = true) (h7 : isPyHexDigit c7 = true)
    (h8 : isPyHexDigit c8 = true) (h9 : isPyHexDigit c9 = true)
    (h10 : isPyHexDigit c10 = true) (h11 : isPyHexDigit c11 = true)
    (h12 : isPyHexDigit c12 = true)
    (hfresh : Nat.testBit (hexVal c7 * 16 + hexVal c8) 7 = true) :
    handle16ByteData
        ['$', 'A', '0', c3, c4, c5, c6, c7, c8, c9, c10, c11, c12, c13, c14, '#'] =
      some { pressure :=
               ((hexVal c9 * 256 + hexVal c10 * 16 + hexVal c11 : ℕ) : ℚ) +
                 (if Nat.testBit (hexVal c7 * 16 + hexVal c8) 0 then (1 : ℚ) / 2 else 0)
             temperature := ((hexVal c11 * 16 + hexVal c12 : ℕ) : ℤ) - 40
             battery := if Nat.testBit (hexVal c7 * 16 + hexVal c8) 1 then 20 else 100
             sensor_no := ((hexVal c6 : ℕ) : ℤ) + 1 } := by
  rw [handle16_eval c3 c4 c5 c6 c7 c8 c9 c10 c11 c12 c13 c14 h6 h7 h8 h9 h10 h11 h12,
    if_pos hfresh]

/-- Witness for C1: the frame `$A0000083123 4xx#` (sensor digit 0, flags
0x83 = fresh + battery-low + half-point, pressure digits 123, temperature
digits 34) decodes to pressure 291.5, temperature 12, battery 20,
sensor 1. -/
theorem claim_C1_witness :
    handle16ByteData
        ['$', 'A', '0', '0', '0', '0', '0', '8', '3', '1', '2', '3', '4', 'x', 'x', '#'] =
      some { pressure := (583 : ℚ) / 2, temperature := 12, battery := 20, sensor_no := 1 } := by
  rw [claim_C1_decode_success '0' '0' '0' '0' '8' '3' '1' '2' '3' '4' 'x' 'x'
    (by decide) (by decide) (by decide) (by decide) (by decide) (by decide) (by decide)
    (by decide)]
  have e0 : hexVal '0' = 0 := by decide
  have e1 : hexVal '1' = 1 := by decide
  have e2 : hexVal '2' = 2 := by decide
  have e3 : hexVal '3' = 3 := by decide
  have e4 : hexVal '4' = 4 := by decide
  have e8 : hexVal '8' = 8 := by decide
  have f0 : Nat.testBit 131 0 = true := by decide
  have f1 : Nat.testBit 131 1 = true := by decide
  norm_num [e0, e1, e2, e3, e4, e8, f0, f1]

/-- Claim C3: a well-formed 16-character frame whose flags byte has bit 7
clear is discarded as stale — decode returns no reading, whatever the other
bits and characters are. -/
theorem claim_C3_stale_discard (c3 c4 c5 c6 c7 c8 c9 c10 c11 c12 c13 c14 : Char)
    (h6 : isPyHexDigit c6 = true) (h7 : isPyHexDigit c7 = true)
    (h8 : isPyHexDigit c8 = true) (h9 : isPyHexDigit c9 = true)
    (h10 : isPyHexDigit c10 = true) (h11 : isPyHexDigit c11 = true)
    (h12 : isPyHexDigit c12 = true)
    (hstale : Nat.testBit (hexVal c7 * 16 + hexVal c8) 7 = false) :
    handle16ByteData
        ['$', 'A', '0', c3, c4, c5, c6, c7, c8, c9, c10, c11, c12, c13, c14, '#'] = none := by
  rw [handle16_eval c3 c4 c5 c6 c7 c8 c9 c10 c11 c12 c13 c14 h6 h7 h8 h9 h10 h11 h12]
  simp [hstale]

/-- Witness for C3: flags byte 0x7f has every bit set except bit 7, and the
frame is still discarded. -/
theorem claim_C3_witness :
    handle16ByteData
        ['$', 'A', '0', 'f', 'f', 'f', '3', '7', 'f', 'f', 'f', 'f', 'f', 'f', 'f', '#'] =
      none := by
  exact claim_C3_stale_discard 'f' 'f' 'f' '3' '7' 'f' 'f' 'f' 'f' 'f' 'f' 'f'
    (by decide) (by decide) (by decide) (by decide) (by decide) (by decide) (by decide)
    (by decide)

/-- Claim C6: a 16-character input that does not start with `$A0` or does
not end with `#` is rejected — decode produces no reading (the code's only
representation of a Format rejection is the `None` return). -/
theorem claim_C6_format_reject (data : List Char) (hlen : data.length = 16)
    (hfmt : startsWithA0 data = false ∨ endsWithHash data = false) :
    handle16ByteData data = none := by
  rcases hfmt with h | h <;> simp [handle16ByteData, h]

/-- Witness for C6: `$B0...#` has the wrong prefix and is rejected. -/
theorem claim_C6_witness :
    handle16ByteData
        ['$', 'B', '0', '0', '0', '0', '0', '8', '0', '1', '2', '3', '4', '0', '0', '#'] =
      none :=
  claim_C6_format_reject
    ['$', 'B', '0', '0', '0', '0', '0', '8', '0', '1', '2', '3', '4', '0', '0', '#']
    (by decide) (Or.inl (by decide))

/-- Claim C9: decoding never looks at the filler positions 3, 4, 5, 13, 14:
two 16-character frames agreeing everywhere else decode identically. -/
theorem claim_C9_filler_irrelevant
    (c0 c1 c2 c3 c4 c5 c6 c7 c8 c9 c10 c11 c12 c13 c14 c15 d3 d4 d5 d13 d14 : Char) :
    handle16ByteData [c0, c1, c2, c3, c4, c5, c6, c7, c8, c9, c10, c11, c12, c13, c14, c15] =
      handle16ByteData [c0, c1, c2, d3, d4, d5, c6, c7, c8, c9, c10, c11, c12, d13, d14, c15] :=
  rfl

/-- Modelled from the spec: the plain shift-and-mask bit test
`(flags >> b) & 1 == 1`. -/
def shiftMaskFlag (flags : ℕ) (bit : ℕ) : Bool :=
  (flags >>> bit) &&& 1 == 1

/-- Claim C2: on every flags byte built from two hex-digit values and every
bit position up to 7, the division-loop helper `byte2flag` agrees with the
plain shift-and-mask bit test. -/
theorem claim_C2_byte2flag_refines (flag_high flag_low bit : ℕ)
    (hh : flag_high < 16) (hl : flag_low < 16) (hb : bit ≤ 7) :
    byte2flag (flag_high : ℤ) (flag_low : ℤ) bit =
      shiftMaskFlag (flag_high * 16 + flag_low) bit := by
  rw [byte2flag_natCast, Nat.testBit_to_div_mod]
  simp only [shiftMaskFlag, Nat.shiftRight_eq_div_pow, Nat.and_one_is_mod]
  rcases Nat.mod_two_eq_zero_or_one ((flag_high * 16 + flag_low) / 2 ^ bit) with h | h <;>
    simp [h]

/-- Witness for C2 at flags byte 0x81, bit 7. -/
theorem claim_C2_witness :
    byte2flag ((8 : ℕ) : ℤ) ((1 : ℕ) : ℤ) 7 = shiftMaskFlag (8 * 16 + 1) 7 :=
  claim_C2_byte2flag_refines 8 1 7 (by decide) (by decide) (by decide)

/-! ### Session-state lemmas -/

theorem scanChars_nil (st : SessionState) : scanChars st [] = st := rfl

theorem scanChars_cons (st : SessionState) (ch : Characteristic) (rest : List Characteristic) :
    scanChars st (ch :: rest) =
      scanChars
        (if ch.uuid = NOTIFY_CHARACTERISTIC_UUID then { st with notify_char := some ch.handle }
         else if ch.uuid = WRITE_CHARACTERISTIC_UUID then { st with write_char := some ch.handle }
         else st)
        rest := rfl

theorem scanChars_notify_isSome (chars : List Characteristic) :
    ∀ st : SessionState, st.notify_char.isSome = true →
      (scanChars st chars).notify_char.isSome = true := by
  induction chars with
  | nil => intro st h; simpa [scanChars_nil] using h
  | cons ch rest ih =>
    intro st h
    rw [scanChars_cons]
    apply ih
    split_ifs <;> simpa using h

theorem scanChars_write_isSome (chars : List Characteristic) :
    ∀ st : SessionState, st.write_char.isSome = true →
      (scanChars st chars).write_char.isSome = true := by
  induction chars with
  | nil => intro st h; simpa [scanChars_nil] using h
  | cons ch rest ih =>
    intro st h
    rw [scanChars_cons]
    apply ih
    split_ifs <;> simpa using h

theorem scanChars_handshakes (chars : List Characteristic) :
    ∀ st : SessionState, (scanChars st chars).handshakes = st.handshakes := by
  induction chars with
  | nil => intro st; rfl
  | cons ch rest ih =>
    intro st
    rw [scanChars_cons, ih]
    split_ifs <;> rfl

/-- Claim C8: once both characteristic references are set, processing any
further advertisement leaves both set — nothing ever writes `none` back. -/
theorem claim_C8_pair_never_reset (st : SessionState) (info : ServiceInfo)
    (hn : st.notify_char.isSome = true) (hw : st.write_char.isSome = true) :
    (startUpdate st info).notify_char.isSome = true ∧
      (startUpdate st info).write_char.isSome = true := by
  unfold startUpdate
  split_ifs <;>
    simp_all [scanChars_notify_isSome info.characteristics st hn,
      scanChars_write_isSome info.characteristics st hw]

/-- Witness for C8: a complete pair survives a matching advertisement that
carries no characteristics. -/
theorem claim_C8_witness :
    (startUpdate { notify_char := some 3, write_char := some 4, handshakes := 1 }
          { name := "TYREDOG", service_uuids := ["6E400001-B5A3-F393-E0A9-E50E24DCCA9E"],
            characteristics := [] }).notify_char.isSome = true ∧
      (startUpdate { notify_char := some 3, write_char := some 4, handshakes := 1 }
          { name := "TYREDOG", service_uuids := ["6E400001-B5A3-F393-E0A9-E50E24DCCA9E"],
            characteristics := [] }).write_char.isSome = true :=
  claim_C8_pair_never_reset _ _ (by decide) (by decide)

/-- A matching advertisement carrying both target characteristics. -/
def advTD : ServiceInfo :=
  { name := "TYREDOG"
    service_uuids := [SERVICE_UUID]
    characteristics :=
      [{ uuid := NOTIFY_CHARACTERISTIC_UUID, handle := 0 },
       { uuid := WRITE_CHARACTERISTIC_UUID, handle := 1 }] }

/-- Counterexample to C4: a session that processes the same matching,
characteristic-complete advertisement twice runs the handshake twice —
there is no idempotency guard in `_start_update`. -/
theorem claim_C4_counterexample :
    (processAll initState [advTD, advTD]).handshakes = 2 := by decide

/-- Claim C4 as amended: re-entry while the pair is already complete runs
the handshake again — every matching advertisement processed from a state
with both references set increments the handshake count by exactly one. -/
theorem claim_C4_amended (st : SessionState) (info : ServiceInfo)
    (hn : st.notify_char.isSome = true) (hw : st.write_char.isSome = true)
    (hname : info.name ∈ TARGET_NAMES) (hsvc : SERVICE_UUID ∈ info.service_uuids) :
    (startUpdate st info).handshakes = st.handshakes + 1 := by
  unfold startUpdate
  rw [if_neg (by simpa using hname), if_neg (by simpa using hsvc),
    if_pos ⟨scanChars_notify_isSome _ _ hn, scanChars_write_isSome _ _ hw⟩]
  simp [scanChars_handshakes]

/-- Witness for the amended C4: from a complete pair with 5 handshakes
already run, a matching advertisement makes it 6. -/
theorem claim_C4_witness :
    (startUpdate { notify_char := some 3, write_char := some 4, handshakes := 5 }
        advTD).handshakes = 6 := by
  rw [claim_C4_amended _ _ (by decide) (by decide) (by decide) (by decide)]

end TPMS

namespace TPMS

/-- Claim C7: the battery value of every successful decode is exactly
binary — 20 when bit 1 of the flags byte (built from the hex digits at
positions 7 and 8) is set, 100 when it is clear, and never anything else. -/
theorem claim_C7_battery_binary (data : List Char) (r : TPMSReading)
    (h : handle16ByteData data = some r) :
    (∃ c7 c8, data.get? 7 = some c7 ∧ data.get? 8 = some c8 ∧
        r.battery = (if Nat.testBit (hexVal c7 * 16 + hexVal c8) 1 then 20 else 100)) ∧
      (r.battery = 20 ∨ r.battery = 100) := by
  unfold handle16ByteData at h
  by_cases hfmt : (!startsWithA0 data || !endsWithHash data) = true
  · rw [if_pos hfmt] at h; simp at h
  rw [if_neg hfmt] at h
  cases hg6 : data.get? 6 with
  | none => rw [hg6] at h; simp at h
  | some c6 =>
  rw [hg6] at h
  dsimp only at h
  cases hp6 : pyIntHex [c6] with
  | none => rw [hp6] at h; simp at h
  | some v6 =>
  rw [hp6] at h
  dsimp only at h
  cases hg7 : data.get? 7 with
  | none => rw [hg7] at h; simp at h
  | some c7 =>
  rw [hg7] at h
  dsimp only at h
  cases hp7 : pyIntHex [c7] with
  | none => rw [hp7] at h; simp at h
  | some v7 =>
  rw [hp7] at h
  dsimp only at h
  cases hg8 : data.get? 8 with
  | none => rw [hg8] at h; simp at h
  | some c8 =>
  rw [hg8] at h
  dsimp only at h
  cases hp8 : pyIntHex [c8] with
  | none => rw [hp8] at h; simp at h
  | some v8 =>
  rw [hp8] at h
  dsimp only at h
  cases hfr : byte2flag v7 v8 7 with
  | false => rw [hfr] at h; simp at h
  | true =>
  rw [hfr] at h
  simp only [Bool.not_true, Bool.false_eq_true, if_false] at h
  cases hg11 : data.get? 11 with
  | none => rw [hg11] at h; simp at h
  | some c11 =>
  rw [hg11] at h
  dsimp only at h
  cases hpp : pyIntHex ((data.drop 9).take 2 ++ [c11]) with
  | none => rw [hpp] at h; simp at h
  | some praw =>
  rw [hpp] at h
  dsimp only at h
  cases hpt : pyIntHex ((data.drop 11).take 2) with
  | none => rw [hpt] at h; simp at h
  | some traw =>
  rw [hpt] at h
  dsimp only at h
  simp only [Option.some.injEq] at h
  obtain ⟨hhex7, hv7⟩ := pyIntHex_single_inv hp7
  obtain ⟨hhex8, hv8⟩ := pyIntHex_single_inv hp8
  subst hv7 hv8
  simp only [byte2flag_natCast] at h
  refine ⟨⟨c7, c8, rfl, rfl, ?_⟩, ?_⟩
  · rw [← h]
  · rw [← h]
    by_cases hb : Nat.testBit (hexVal c7 * 16 + hexVal c8) 1 = true
    · left
      simp [hb]
    · right
      simp [hb]

end TPMS

namespace TPMS

/-- Witness for C7 on the frame `$A0000083123 4xx#`: battery is 20 and bit 1
of flags 0x83 is set. -/
theorem claim_C7_witness :
    (∃ c7 c8,
        (['$', 'A', '0', '0', '0', '0', '0', '8', '3', '1', '2', '3', '4', 'x', 'x', '#'] :
            List Char).get? 7 = some c7 ∧
          (['$', 'A', '0', '0', '0', '0', '0', '8', '3', '1', '2', '3', '4', 'x', 'x', '#'] :
              List Char).get? 8 = some c8 ∧
          ({ pressure := (583 : ℚ) / 2, temperature := 12, battery := 20,
              sensor_no := 1 } : TPMSReading).battery =
            (if Nat.testBit (hexVal c7 * 16 + hexVal c8) 1 then 20 else 100)) ∧
      (({ pressure := (583 : ℚ) / 2, temperature := 12, battery := 20,
            sensor_no := 1 } : TPMSReading).battery = 20 ∨
        ({ pressure := (583 : ℚ) / 2, temperature := 12, battery := 20,
            sensor_no := 1 } : TPMSReading).battery = 100) :=
  claim_C7_battery_binary
    ['$', 'A', '0', '0', '0', '0', '0', '8', '3', '1', '2', '3', '4', 'x', 'x', '#']
    { pressure := (583 : ℚ) / 2, temperature := 12, battery := 20, sensor_no := 1 }
    (by
      simp [handle16ByteData, pyIntHex, stripPySpaces, isPySpace, pyIntBody, pyHexDigits,
        pyHexGo, isPyHexDigit, hexVal, byte2flag, byte2flagLoopVal, startsWithA0, endsWithHash,
        Int.fmod, Int.fdiv]
      norm_num)

end TPMS

namespace TPMS

/-- Counterexample to C10: Python `int(str, 16)` accepts a sign, so the
frame `$A0xxx080-123xx#` (pressure field `"-12"`) decodes successfully with
pressure -18, outside the claimed range [0, 4095.5]. -/
theorem claim_C10_counterexample :
    handle16ByteData ['$', 'A', '0', 'x', 'x', 'x', '0', '8', '0', '-', '1', '2', '3', 'x', 'x', '#'] =
        some { pressure := -18, temperature := -5, battery := 100, sensor_no := 1 } ∧
      ((-18 : ℚ) < 0) := by
  constructor
  · simp [handle16ByteData, pyIntHex, stripPySpaces, isPySpace, pyIntBody, pyHexDigits,
      pyHexGo, isPyHexDigit, hexVal, byte2flag, byte2flagLoopVal, startsWithA0, endsWithHash,
      Int.fmod, Int.fdiv]
  · norm_num

/-- Claim C10 as amended: every successful decode of a frame whose
positions 6-12 hold hex digits produces bounded values: sensor index in
[1, 16], pressure in [0, 4095.5] with its doubled value an integer,
temperature in [-40, 215], battery 20 or 100.  (Without the hex-digit
restriction, `int` also accepts sign/whitespace/radix/underscore forms,
which can fall outside these ranges.) -/
theorem claim_C10_amended (c3 c4 c5 c6 c7 c8 c9 c10 c11 c12 c13 c14 : Char)
    (h6 : isPyHexDigit c6 = true) (h7 : isPyHexDigit c7 = true)
    (h8 : isPyHexDigit c8 = true) (h9 : isPyHexDigit c9 = true)
    (h10 : isPyHexDigit c10 = true) (h11 : isPyHexDigit c11 = true)
    (h12 : isPyHexDigit c12 = true) (r : TPMSReading)
    (hr : handle16ByteData
        ['$', 'A', '0', c3, c4, c5, c6, c7, c8, c9, c10, c11, c12, c13, c14, '#'] = some r) :
    (1 ≤ r.sensor_no ∧ r.sensor_no ≤ 16) ∧
      (0 ≤ r.pressure ∧ r.pressure ≤ 8191 / 2 ∧ ∃ m : ℕ, m ≤ 8191 ∧ r.pressure = (m : ℚ) / 2) ∧
      (-40 ≤ r.temperature ∧ r.temperature ≤ 215) ∧
      (r.battery = 20 ∨ r.battery = 100) := by
  rw [handle16_eval c3 c4 c5 c6 c7 c8 c9 c10 c11 c12 c13 c14 h6 h7 h8 h9 h10 h11 h12] at hr
  by_cases hb7 : Nat.testBit (hexVal c7 * 16 + hexVal c8) 7 = true
  · rw [if_pos hb7, Option.some_inj] at hr
    have b6 := hexVal_lt_16 h6
    have b9 := hexVal_lt_16 h9
    have b10 := hexVal_lt_16 h10
    have b11 := hexVal_lt_16 h11
    have b12 := hexVal_lt_16 h12
    have q9 : (hexVal c9 : ℚ) ≤ 15 := by exact_mod_cast Nat.le_of_lt_succ b9
    have q10 : (hexVal c10 : ℚ) ≤ 15 := by exact_mod_cast Nat.le_of_lt_succ b10
    have q11 : (hexVal c11 : ℚ) ≤ 15 := by exact_mod_cast Nat.le_of_lt_succ b11
    refine ⟨⟨?_, ?_⟩, ⟨?_, ?_, ?_⟩, ⟨?_, ?_⟩, ?_⟩
    · rw [← hr]
      show (1 : ℤ) ≤ ((hexVal c6 : ℕ) : ℤ) + 1
      omega
    · rw [← hr]
      show ((hexVal c6 : ℕ) : ℤ) + 1 ≤ 16
      omega
    · rw [← hr]
      show (0 : ℚ) ≤ _
      split_ifs <;> push_cast <;> positivity
    · rw [← hr]
      show _ ≤ (8191 : ℚ) / 2
      split_ifs <;> push_cast <;> linarith
    · rw [← hr]
      by_cases hhp : Nat.testBit (hexVal c7 * 16 + hexVal c8) 0 = true
      · refine ⟨2 * (hexVal c9 * 256 + hexVal c10 * 16 + hexVal c11) + 1, by omega, ?_⟩
        show ((hexVal c9 * 256 + hexVal c10 * 16 + hexVal c11 : ℕ) : ℚ) +
          (if Nat.testBit (hexVal c7 * 16 + hexVal c8) 0 then (1 : ℚ) / 2 else 0) = _
        rw [if_pos hhp]
        push_cast
        ring
      · refine ⟨2 * (hexVal c9 * 256 + hexVal c10 * 16 + hexVal c11), by omega, ?_⟩
        show ((hexVal c9 * 256 + hexVal c10 * 16 + hexVal c11 : ℕ) : ℚ) +
          (if Nat.testBit (hexVal c7 * 16 + hexVal c8) 0 then (1 : ℚ) / 2 else 0) = _
        rw [if_neg hhp]
        push_cast
        ring
    · rw [← hr]
      show (-40 : ℤ) ≤ ((hexVal c11 * 16 + hexVal c12 : ℕ) : ℤ) - 40
      omega
    · rw [← hr]
      show ((hexVal c11 * 16 + hexVal c12 : ℕ) : ℤ) - 40 ≤ 215
      omega
    · rw [← hr]
      by_cases hb1 : Nat.testBit (hexVal c7 * 16 + hexVal c8) 1 = true
      · left
        show (if Nat.testBit (hexVal c7 * 16 + hexVal c8) 1 then 20 else 100) = 20
        rw [if_pos hb1]
      · right
        show (if Nat.testBit (hexVal c7 * 16 + hexVal c8) 1 then 20 else 100) = 100
        rw [if_neg hb1]
  · rw [if_neg hb7] at hr
    exact absurd hr (by simp)

end TPMS

namespace TPMS

/-- The reading decoded from the frame `$A0000083123 4xx#`, used by several
witnesses. -/
def sampleReading : TPMSReading :=
  { pressure := (583 : ℚ) / 2, temperature := 12, battery := 20, sensor_no := 1 }

/-- Witness for the amended C10 on the frame `$A0000083123 4xx#`. -/
theorem claim_C10_witness :
    (1 ≤ sampleReading.sensor_no ∧ sampleReading.sensor_no ≤ 16) ∧
      (0 ≤ sampleReading.pressure ∧ sampleReading.pressure ≤ 8191 / 2 ∧
        ∃ m : ℕ, m ≤ 8191 ∧ sampleReading.pressure = (m : ℚ) / 2) ∧
      (-40 ≤ sampleReading.temperature ∧ sampleReading.temperature ≤ 215) ∧
      (sampleReading.battery = 20 ∨ sampleReading.battery = 100) :=
  claim_C10_amended '0' '0' '0' '0' '8' '3' '1' '2' '3' '4' 'x' 'x'
    (by decide) (by decide) (by decide) (by decide) (by decide) (by decide) (by decide)
    sampleReading
    (by
      simp [handle16ByteData, pyIntHex, stripPySpaces, isPySpace, pyIntBody, pyHexDigits,
        pyHexGo, isPyHexDigit, hexVal, byte2flag, byte2flagLoopVal, startsWithA0, endsWithHash,
        Int.fmod, Int.fdiv, sampleReading]
      norm_num)

end TPMS

namespace TPMS

theorem handle16_none_of_parse_fail (data : List Char) (c6 c7 c8 c11 : Char)
    (hg6 : data.get? 6 = some c6) (hg7 : data.get? 7 = some c7)
    (hg8 : data.get? 8 = some c8) (hg11 : data.get? 11 = some c11)
    (hdisj : pyIntHex [c6] = none ∨ pyIntHex [c7] = none ∨ pyIntHex [c8] = none ∨
      pyIntHex ((data.drop 9).take 2 ++ [c11]) = none ∨
      pyIntHex ((data.drop 11).take 2) = none) :
    handle16ByteData data = none := by
  unfold handle16ByteData
  by_cases hfmt : (!startsWithA0 data || !endsWithHash data) = true
  · rw [if_pos hfmt]
  rw [if_neg hfmt, hg6]
  dsimp only
  cases hp6 : pyIntHex [c6] with
  | none => rfl
  | some v6 =>
  dsimp only
  rw [hg7]
  dsimp only
  cases hp7 : pyIntHex [c7] with
  | none => rfl
  | some v7 =>
  dsimp only
  rw [hg8]
  dsimp only
  cases hp8 : pyIntHex [c8] with
  | none => rfl
  | some v8 =>
  dsimp only
  cases hfr : byte2flag v7 v8 7 with
  | false => simp
  | true =>
  simp only [Bool.not_true, Bool.false_eq_true, if_false]
  rw [hg11]
  dsimp only
  cases hpp : pyIntHex ((data.drop 9).take 2 ++ [c11]) with
  | none => rfl
  | some praw =>
  dsimp only
  cases hpt : pyIntHex ((data.drop 11).take 2) with
  | none => rfl
  | some traw =>
  simp_all

end TPMS

namespace TPMS

/-- Claim C5 as amended: the notification handler is total — undecodable
bytes produce no reading, text of length other than 16 produces no reading,
and when numeric parsing of any expected hex field fails the frame is
dropped with no reading; but a non-hex character does not always make the
parse fail (Python `int` accepts surrounding whitespace, a sign, a `0x`
mark and interior underscores), so such frames can still decode. -/
theorem claim_C5_amended (bs : List ℕ) :
    (utf8Decode bs = none → onDataReceived bs = none) ∧
      (∀ s : List Char, utf8Decode bs = some s → s.length ≠ 16 → onDataReceived bs = none) ∧
      (∀ (s : List Char) (c6 c7 c8 c11 : Char), utf8Decode bs = some s → s.length = 16 →
        s.get? 6 = some c6 → s.get? 7 = some c7 → s.get? 8 = some c8 → s.get? 11 = some c11 →
        (pyIntHex [c6] = none ∨ pyIntHex [c7] = none ∨ pyIntHex [c8] = none ∨
          pyIntHex ((s.drop 9).take 2 ++ [c11]) = none ∨
          pyIntHex ((s.drop 11).take 2) = none) →
        onDataReceived bs = none) := by
  refine ⟨?_, ?_, ?_⟩
  · intro h
    simp [onDataReceived, h]
  · intro s hs hlen
    simp [onDataReceived, hs, hlen]
  · intro s c6 c7 c8 c11 hs hlen hg6 hg7 hg8 hg11 hdisj
    simp only [onDataReceived, hs, hlen, if_pos]
    exact handle16_none_of_parse_fail s c6 c7 c8 c11 hg6 hg7 hg8 hg11 hdisj

/-- Counterexample to C5: the 16-byte notification `$A0xxx080 123xx#` has a
space — a non-hex character — at position 9 inside the pressure field, yet
it decodes to a reading (pressure 18), because Python `int(" 12", 16)`
strips the whitespace instead of raising. -/
theorem claim_C5_counterexample :
    onDataReceived [36, 65, 48, 120, 120, 120, 48, 56, 48, 32, 49, 50, 51, 120, 120, 35] =
      some { pressure := 18, temperature := -5, battery := 100, sensor_no := 1 } := by
  have hu : utf8Decode [36, 65, 48, 120, 120, 120, 48, 56, 48, 32, 49, 50, 51, 120, 120, 35] =
      some ['$', 'A', '0', 'x', 'x', 'x', '0', '8', '0', ' ', '1', '2', '3', 'x', 'x', '#'] := by
    decide
  rw [onDataReceived, hu]
  simp [handle16ByteData, pyIntHex, stripPySpaces, isPySpace, pyIntBody, pyHexDigits,
    pyHexGo, isPyHexDigit, hexVal, byte2flag, byte2flagLoopVal, startsWithA0, endsWithHash,
    Int.fmod, Int.fdiv]

/-- Witness for the amended C5: a frame with `z` at position 6 fails the
sensor-index parse and yields no reading. -/
theorem claim_C5_witness :
    onDataReceived [36, 65, 48, 120, 120, 120, 122, 48, 56, 49, 50, 51, 52, 120, 120, 35] =
      none := by
  have h := (claim_C5_amended
    [36, 65, 48, 120, 120, 120, 122, 48, 56, 49, 50, 51, 52, 120, 120, 35]).2.2
    ['$', 'A', '0', 'x', 'x', 'x', 'z', '0', '8', '1', '2', '3', '4', 'x', 'x', '#']
    'z' '0' '8' '3' (by decide) (by decide) (by decide) (by decide) (by decide) (by decide)
    (Or.inl (by decide))
  exact h

end TPMS
